/-
Verification of the wpsmith snapshot store and blueprint configuration
logic.

This file gives a shallow embedding of the two core components of the
repository:

* the checkpoint (snapshot) store of `src/commands/checkpoint.ts`
  (`checkpointCreate`, `checkpointRestore`, `checkpointDelete`), modelled
  as pure transition functions over an explicit filesystem state
  (`FsState`); and
* the blueprint configuration logic of `src/lib/config.ts`
  (`loadBlueprint`, `saveBlueprint`, `getPluginsFromBlueprint`), modelled
  as pure functions over a structural representation of the JSON
  document, where an `Option` field value of `none` represents a key
  absent from the JSON object.

JavaScript semantics that matter are modelled explicitly: object spread
`{...a, ...b}` is a per-key shallow merge (a key present in `b` replaces
`a`'s value wholesale), and the truthiness tests `if (name)` /
`name || default` / `!!slug` treat the empty string and `undefined` both
as false (`jsTruthy`, `truthySlug`).

Every error path of the checkpoint commands in the source calls
`process.exit` before any filesystem mutation, so the operations are
modelled as returning the (possibly unchanged) filesystem state together
with an optional error condition.
-/
import Mathlib

namespace WPSmith

/-- One record of the checkpoint index `meta.json` (interface
`CheckpointMeta` in `src/commands/checkpoint.ts`): a name, an ISO
creation timestamp, the backing filename inside the checkpoint
directory, and an optional description. -/
structure CheckpointRecord where
  name : String
  created : String
  file : String
  description : Option String
deriving DecidableEq, Repr

/-- The failure conditions of the checkpoint commands.  Each corresponds
to a `console.error` + `process.exit(1)` path in
`src/commands/checkpoint.ts`. -/
inductive CheckpointError where
  | noLiveData
  | duplicateName
  | notFound
  | missingFile
deriving DecidableEq, Repr

/-- The filesystem state the checkpoint commands operate on: the live
database file at `dbPath` (`none` = file absent), its three sidecar
files, the contents of the checkpoint directory as an association list
from filename to file content, and the parsed checkpoint index
`meta.json`.  File contents are modelled as strings (byte sequences). -/
structure FsState where
  db : Option String
  journal : Option String
  wal : Option String
  shm : Option String
  snapFiles : List (String × String)
  meta : List CheckpointRecord
deriving DecidableEq, Repr

/-- Write a file into the checkpoint directory (`fs.copy` with the
directory entry as destination): the new entry shadows and replaces any
existing entry with the same name. -/
def setFile (fs : List (String × String)) (k v : String) : List (String × String) :=
  (k, v) :: fs.filter (fun p => p.1 ≠ k)

/-- Remove a file from the checkpoint directory (`fs.remove`; removing
an absent file is not an error). -/
def removeFile (fs : List (String × String)) (k : String) : List (String × String) :=
  fs.filter (fun p => p.1 ≠ k)

/-- JavaScript truthiness of an optional string argument: `undefined`
and the empty string are both falsy (`if (name)`, `name || default`). -/
def jsTruthy : Option String → Option String
  | some n => if n.isEmpty then none else some n
  | none => none

/-- `findIndex` followed by `splice(index, 1)`: remove the first element
satisfying `p`, returning it together with the remaining list, or `none`
when no element satisfies `p` (`findIndex` returned `-1`). -/
def spliceFirst (p : α → Bool) : List α → Option (α × List α)
  | [] => none
  | a :: rest =>
    if p a then some (a, rest)
    else
      match spliceFirst p rest with
      | none => none
      | some (b, rest2) => some (b, a :: rest2)

/-- `checkpointCreate` of `src/commands/checkpoint.ts` (lines 27-81).
`ts` is `Date.now()` (used only to synthesize a name when none is
given), `now` is `new Date().toISOString()`.  Checks that the live
database exists, derives `checkpointName` (the caller's name when
truthy, otherwise `checkpoint-<ts>`), fails with `duplicateName` when a
file already occupies `<checkpointName>.sqlite` in the checkpoint
directory (a filesystem check, not an index check), then copies the live
file there and appends a record to the index. -/
def checkpointCreate (s : FsState) (name? : Option String) (ts : Nat)
    (now : String) (descr : Option String) : FsState × Option CheckpointError :=
  match s.db with
  | none => (s, some .noLiveData)
  | some dbContent =>
    let checkpointName :=
      match jsTruthy name? with
      | some n => n
      | none => "checkpoint-" ++ toString ts
    let checkpointFile := checkpointName ++ ".sqlite"
    if (s.snapFiles.lookup checkpointFile).isSome then
      (s, some .duplicateName)
    else
      ({ s with
          snapFiles := setFile s.snapFiles checkpointFile dbContent,
          meta := s.meta ++ [⟨checkpointName, now, checkpointFile, descr⟩] },
        none)

/-- The tail of `checkpointRestore` once a record has been selected
(lines 179-198): fail with `missingFile` when the backing file is
absent, otherwise remove the live database and its sidecar files and
copy the snapshot content to the live path. -/
def restoreFrom (s : FsState) (cp : CheckpointRecord) : FsState × Option CheckpointError :=
  match s.snapFiles.lookup cp.file with
  | none => (s, some .missingFile)
  | some content =>
    ({ s with db := some content, journal := none, wal := none, shm := none }, none)

/-- `checkpointRestore` of `src/commands/checkpoint.ts` (lines 152-208).
Fails with `notFound` when the index is empty; when the name argument is
truthy, selects the first index record with that name (failing with
`notFound` when none matches); otherwise selects the last record of the
index (`meta.checkpoints[meta.checkpoints.length - 1]`); then proceeds
as `restoreFrom`.  The `none` fallback of the last-record branch is
unreachable: it is guarded by the emptiness check. -/
def checkpointRestore (s : FsState) (name? : Option String) : FsState × Option CheckpointError :=
  if s.meta.length = 0 then (s, some .notFound)
  else
    match jsTruthy name? with
    | some n =>
      match s.meta.find? (fun cp => cp.name == n) with
      | none => (s, some .notFound)
      | some cp => restoreFrom s cp
    | none =>
      match s.meta.getLast? with
      | none => (s, some .notFound)
      | some cp => restoreFrom s cp

/-- `checkpointDelete` of `src/commands/checkpoint.ts` (lines 217-242).
Fails with `notFound` when `findIndex` misses; otherwise removes the
record's backing file (best-effort: a missing file is not an error),
splices the record out of the index and persists the index. -/
def checkpointDelete (s : FsState) (name : String) : FsState × Option CheckpointError :=
  match spliceFirst (fun cp => cp.name == name) s.meta with
  | none => (s, some .notFound)
  | some (cp, rest) =>
    ({ s with snapFiles := removeFile s.snapFiles cp.file, meta := rest }, none)

/-! ## Blueprint configuration model (`src/lib/config.ts`)

JSON objects are modelled structurally; a field of type `Option _`
whose value is `none` represents a key absent from the JSON object. -/

/-- The `preferredVersions` object of a blueprint. -/
structure PreferredVersions where
  php : Option String
  wp : Option String
deriving DecidableEq, Repr

/-- The `features` object of a blueprint. -/
structure Features where
  networking : Option Bool
deriving DecidableEq, Repr

/-- The `wpsmith` extension object of a blueprint. -/
structure WpsmithExt where
  port : Option Nat
deriving DecidableEq, Repr

/-- The `pluginData` payload of an `installPlugin` step: a resource
kind (`"wordpress.org/plugins"` or `"url"`), an optional slug and an
optional url. -/
structure PluginData where
  resource : String
  slug : Option String
  url : Option String
deriving DecidableEq, Repr

/-- One element of a blueprint's `steps` array.  The source type is an
open union tagged by the `step` string; the only payload the modelled
operations inspect is `pluginData` (present exactly on well-formed
`installPlugin` steps, but the open fallback variant also admits an
`installPlugin` tag without it, which is why the source guards with
`'pluginData' in step`).  Payloads of the other variants are never read
by the modelled functions and are not represented. -/
structure BlueprintStep where
  step : String
  pluginData : Option PluginData
deriving DecidableEq, Repr

/-- The blueprint configuration document (`interface Blueprint`). -/
structure Blueprint where
  schema : Option String
  landingPage : Option String
  preferredVersions : Option PreferredVersions
  features : Option Features
  steps : Option (List BlueprintStep)
  wpsmith : Option WpsmithExt
deriving DecidableEq, Repr

/-- The `BLUEPRINT_SCHEMA` constant. -/
def BLUEPRINT_SCHEMA : String := "https://playground.wordpress.net/blueprint-schema.json"

/-- The `DEFAULT_BLUEPRINT` constant: schema id, default runtime
versions (`php: "8.3"`, `wp: "latest"`) and default extension block
(`port: 9400`); all other keys absent. -/
def DEFAULT_BLUEPRINT : Blueprint :=
  { schema := some BLUEPRINT_SCHEMA
    landingPage := none
    preferredVersions := some { php := some "8.3", wp := some "latest" }
    features := none
    steps := none
    wpsmith := some { port := some 9400 } }

/-- JavaScript object spread `{...a, ...b}` at the top level of two
blueprints: per key, `b`'s value when the key is present in `b`,
otherwise `a`'s. -/
def spreadBlueprint (a b : Blueprint) : Blueprint :=
  { schema := b.schema <|> a.schema
    landingPage := b.landingPage <|> a.landingPage
    preferredVersions := b.preferredVersions <|> a.preferredVersions
    features := b.features <|> a.features
    steps := b.steps <|> a.steps
    wpsmith := b.wpsmith <|> a.wpsmith }

/-- The outcome of `fs.readJSON(blueprintPath)`: the file is missing,
its content fails to parse, or it parses to a blueprint document. -/
inductive DiskRead where
  | missing
  | malformed
  | ok (b : Blueprint)
deriving DecidableEq, Repr

/-- `loadBlueprint` of `src/lib/config.ts` (lines 63-72): on any read or
parse failure return `DEFAULT_BLUEPRINT`; otherwise return
`{...DEFAULT_BLUEPRINT, ...blueprint}`.  The function is total: no
failure is ever propagated. -/
def loadBlueprint : DiskRead → Blueprint
  | .ok b => spreadBlueprint DEFAULT_BLUEPRINT b
  | .missing => DEFAULT_BLUEPRINT
  | .malformed => DEFAULT_BLUEPRINT

/-- Spread of two optional `preferredVersions` objects
(`{...existing.preferredVersions, ...blueprint.preferredVersions}`):
spreading `undefined` contributes no keys, and the result is always an
object. -/
def spreadPV (a b : Option PreferredVersions) : PreferredVersions :=
  let a' := a.getD { php := none, wp := none }
  let b' := b.getD { php := none, wp := none }
  { php := b'.php <|> a'.php, wp := b'.wp <|> a'.wp }

/-- Spread of two optional `wpsmith` extension objects. -/
def spreadWpsmith (a b : Option WpsmithExt) : WpsmithExt :=
  let a' := a.getD { port := none }
  let b' := b.getD { port := none }
  { port := b'.port <|> a'.port }

/-- `saveBlueprint` of `src/lib/config.ts` (lines 77-102), returning the
document written to disk.  Loads the existing document (with
`loadBlueprint`'s fail-open behavior), shallow-merges the partial
document `patch` over it at the top level, deep-merges exactly
`preferredVersions` and `wpsmith` key-by-key, then forces a schema id:
`{$schema: BLUEPRINT_SCHEMA, ...merged}` places the key first, and
`merged`'s own `$schema`, always present here, overwrites the literal. -/
def saveBlueprint (disk : DiskRead) (patch : Blueprint) : Blueprint :=
  let existing := loadBlueprint disk
  let merged : Blueprint :=
    { schema := patch.schema <|> existing.schema
      landingPage := patch.landingPage <|> existing.landingPage
      preferredVersions := some (spreadPV existing.preferredVersions patch.preferredVersions)
      features := patch.features <|> existing.features
      steps := patch.steps <|> existing.steps
      wpsmith := some (spreadWpsmith existing.wpsmith patch.wpsmith) }
  { merged with schema := merged.schema <|> some BLUEPRINT_SCHEMA }

/-- The filter `(slug): slug is string => !!slug` applied to an optional
slug: `undefined` and the empty string are falsy and dropped. -/
def truthySlug : Option String → Option String
  | some s => if s.isEmpty then none else some s
  | none => none

/-- `getPluginsFromBlueprint` of `src/lib/config.ts` (lines 107-116):
with no `steps` key return `[]`; otherwise keep the steps tagged
`installPlugin` that carry a `pluginData` key, project out
`pluginData.slug`, and keep only truthy slugs. -/
def getPluginsFromBlueprint (b : Blueprint) : List String :=
  match b.steps with
  | none => []
  | some steps =>
    (((steps.filter (fun st => st.step == "installPlugin" && st.pluginData.isSome)).map
        (fun st => st.pluginData.bind PluginData.slug)).filterMap truthySlug)

/-! ## Helper lemmas -/

/-- Looking up a file just written into the checkpoint directory yields
the written content. -/
theorem lookup_setFile_self (fs : List (String × String)) (k v : String) :
    (setFile fs k v).lookup k = some v := by
  simp [setFile]

/-! ## Claims about the snapshot store -/

/-- C1: starting from any filesystem state whose live database file
holds content `c` (any byte string, the empty one included), in which no
file occupies the computed snapshot path `x.sqlite` and no index record
is already named `x` (creation with a fresh name), `Create("x")` then
`Restore("x")` both succeed and leave the live data file byte-identical
to `c`, the content it had when `Create` ran. -/
theorem create_restore_roundtrip (s : FsState) (c : String) (ts : Nat)
    (now : String) (d : Option String)
    (hdb : s.db = some c)
    (hfile : s.snapFiles.lookup "x.sqlite" = none)
    (hname : ∀ r ∈ s.meta, r.name ≠ "x") :
    ∃ s1 s2, checkpointCreate s (some "x") ts now d = (s1, none) ∧
      checkpointRestore s1 (some "x") = (s2, none) ∧ s2.db = some c := by
  have happ : ("x" ++ ".sqlite" : String) = "x.sqlite" := rfl
  have hcn : jsTruthy (some "x") = some "x" := rfl
  refine ⟨{ s with
      snapFiles := setFile s.snapFiles "x.sqlite" c,
      meta := s.meta ++ [⟨"x", now, "x.sqlite", d⟩] },
    { s with
      db := some c, journal := none, wal := none, shm := none,
      snapFiles := setFile s.snapFiles "x.sqlite" c,
      meta := s.meta ++ [⟨"x", now, "x.sqlite", d⟩] }, ?_, ?_, ?_⟩
  · simp only [checkpointCreate, hdb, hcn, happ, hfile, Option.isSome_none,
      Bool.false_eq_true, if_false]
  · simp only [checkpointRestore, List.length_append, List.length_cons,
      List.length_nil, Nat.add_eq_zero, Nat.succ_ne_zero, and_false, if_false, hcn]
    rw [List.find?_append]
    have hnone : s.meta.find? (fun cp => cp.name == "x") = none := by
      rw [List.find?_eq_none]
      intro r hr
      simpa using hname r hr
    rw [hnone]
    simp only [Option.none_or, List.find?_cons, beq_self_eq_true, if_true]
    simp [restoreFrom, lookup_setFile_self]
  · rfl

/-- A concrete state for the C1 witness: an empty live database file, an
empty checkpoint directory and an empty index. -/
def c1State : FsState :=
  { db := some "", journal := none, wal := none, shm := none,
    snapFiles := [], meta := [] }

/-- Witness for C1: the round trip at a concrete state whose live file
is the zero-byte file. -/
theorem create_restore_roundtrip_witness :
    ∃ s1 s2, checkpointCreate c1State (some "x") 0 "2024-01-01" none = (s1, none) ∧
      checkpointRestore s1 (some "x") = (s2, none) ∧ s2.db = some "" :=
  create_restore_roundtrip c1State "" 0 "2024-01-01" none rfl rfl (by simp [c1State])

/-- C2: whenever the index is non-empty, `Restore` with no name selects
the last record in insertion order (the most recently created one):
if the last index record is `cp` and its backing file holds `v`, the
restore succeeds and the live data file afterwards holds `v`. -/
theorem restore_default_latest (s : FsState) (cp : CheckpointRecord) (v : String)
    (hlast : s.meta.getLast? = some cp)
    (hfile : s.snapFiles.lookup cp.file = some v) :
    ∃ s', checkpointRestore s none = (s', none) ∧ s'.db = some v := by
  have hne : ¬ s.meta.length = 0 := by
    intro h
    rw [List.length_eq_zero] at h
    rw [h] at hlast
    simp at hlast
  refine ⟨{ s with db := some v, journal := none, wal := none, shm := none }, ?_, rfl⟩
  simp only [checkpointRestore, hne, if_false, jsTruthy, hlast, restoreFrom, hfile]

/-- A concrete state for the C2 witness: snapshots A, B, C created in
that order (the index is append-only, so insertion order is creation
order), capturing live contents `vA`, `vB`, `vC` respectively. -/
def c2State : FsState :=
  { db := some "current", journal := none, wal := none, shm := none,
    snapFiles := [("A.sqlite", "vA"), ("B.sqlite", "vB"), ("C.sqlite", "vC")],
    meta := [⟨"A", "t1", "A.sqlite", none⟩, ⟨"B", "t2", "B.sqlite", none⟩,
      ⟨"C", "t3", "C.sqlite", none⟩] }

/-- Witness for C2: with snapshots A, B, C in creation order,
`Restore()` restores C's content. -/
theorem restore_default_latest_witness :
    ∃ s', checkpointRestore c2State none = (s', none) ∧ s'.db = some "vC" :=
  restore_default_latest c2State ⟨"C", "t3", "C.sqlite", none⟩ "vC" rfl rfl

/-- A string differing from the empty string is not `isEmpty` (it is
truthy in the JavaScript sense). -/
theorem isEmpty_false_of_ne (n : String) (h : n ≠ "") : n.isEmpty = false := by
  rw [Bool.eq_false_iff]
  intro hx
  exact h ((String.isEmpty_iff n).mp hx)

/-- C6: from a state with a live database, no file at the computed
snapshot path `x.sqlite` and no index record named `x`, the first
`Create("x")` succeeds and the second fails with `DuplicateName`,
leaving the index with exactly one record named `x` and the filesystem
unchanged by the second call.  The last conjunct isolates the mechanism:
the duplicate check consults the filesystem, not the index — any state
whose live database exists and whose snapshot directory has no file at
`x.sqlite` is accepted, regardless of what the index contains. -/
theorem create_duplicate_rejected (s : FsState) (c : String) (ts1 ts2 : Nat)
    (now1 now2 : String) (d1 d2 : Option String)
    (hdb : s.db = some c)
    (hfile : s.snapFiles.lookup "x.sqlite" = none)
    (hname : ∀ r ∈ s.meta, r.name ≠ "x") :
    ∃ s1, checkpointCreate s (some "x") ts1 now1 d1 = (s1, none) ∧
      checkpointCreate s1 (some "x") ts2 now2 d2 = (s1, some .duplicateName) ∧
      (s1.meta.filter (fun r => r.name == "x")).length = 1 ∧
      (∀ t c2, t.db = some c2 → t.snapFiles.lookup "x.sqlite" = none →
        (checkpointCreate t (some "x") ts2 now2 d2).2 = none) := by
  have happ : ("x" ++ ".sqlite" : String) = "x.sqlite" := rfl
  have hcn : jsTruthy (some "x") = some "x" := rfl
  refine ⟨{ s with
      snapFiles := setFile s.snapFiles "x.sqlite" c,
      meta := s.meta ++ [⟨"x", now1, "x.sqlite", d1⟩] }, ?_, ?_, ?_, ?_⟩
  · simp only [checkpointCreate, hdb, hcn, happ, hfile, Option.isSome_none,
      Bool.false_eq_true, if_false]
  · simp only [checkpointCreate, hdb, hcn, happ, lookup_setFile_self,
      Option.isSome_some, if_true]
  · rw [List.filter_append]
    have hnil : s.meta.filter (fun r => r.name == "x") = [] := by
      rw [List.filter_eq_nil_iff]
      intro r hr
      simpa using hname r hr
    rw [hnil]
    simp
  · intro t c2 htdb htfile
    simp only [checkpointCreate, htdb, hcn, happ, htfile, Option.isSome_none,
      Bool.false_eq_true, if_false]

/-- Witness for C6: both creates run at a concrete initial state (empty
index, empty snapshot directory, a one-byte live file). -/
theorem create_duplicate_rejected_witness :
    ∃ s1, checkpointCreate c1State (some "x") 1 "2024-01-01" none = (s1, none) ∧
      checkpointCreate s1 (some "x") 2 "2024-01-02" none = (s1, some .duplicateName) ∧
      (s1.meta.filter (fun r => r.name == "x")).length = 1 ∧
      (∀ t c2, t.db = some c2 → t.snapFiles.lookup "x.sqlite" = none →
        (checkpointCreate t (some "x") 2 "2024-01-02" none).2 = none) :=
  create_duplicate_rejected c1State "" 1 2 "2024-01-01" "2024-01-02" none none
    rfl rfl (by simp [c1State])

/-- A concrete state for the C7 counterexample: one record named `A`
whose backing file is present, and a live database holding `old`. -/
def c7State : FsState :=
  { db := some "old", journal := none, wal := none, shm := none,
    snapFiles := [("A.sqlite", "vA")], meta := [⟨"A", "t1", "A.sqlite", none⟩] }

/-- A concrete state for the C8 witness and the C7 `MissingFile`
witness: records `x` and `y`, where `x`'s backing file is absent from
the snapshot directory. -/
def c8State : FsState :=
  { db := some "live", journal := none, wal := none, shm := none,
    snapFiles := [("y.sqlite", "vy")],
    meta := [⟨"x", "t1", "x.sqlite", none⟩, ⟨"y", "t2", "y.sqlite", none⟩] }

/-- Counterexample to C7 as stated: the empty string is a supplied name
that matches no index record, yet `Restore("")` does not fail with
`NotFound` — the source tests the name with JavaScript truthiness
(`if (name)`), so an empty-string name falls through to the
latest-record branch, succeeds, and overwrites the live data file. -/
theorem restore_empty_name_counterexample :
    c7State.meta.find? (fun r => r.name == "") = none ∧
    checkpointRestore c7State (some "") ≠ (c7State, some .notFound) ∧
    checkpointRestore c7State (some "") = ({ c7State with db := some "vA" }, none) := by
  decide

/-- C7 (amended): `Restore` fails with `NotFound` when the index is
empty (whatever the name argument), and when a non-empty name is
supplied that no index record matches; it fails with `MissingFile` when
a non-empty name is supplied, a record matches, but the first matching
record's backing file is absent; in each failure case the filesystem
state — the live data file included — is returned unmodified (in the
source, each of these paths exits before any file is removed or
copied). An empty-string supplied name is treated as absent and selects
the latest record instead. -/
theorem restore_failure_cases (s : FsState) (n : String) :
    (s.meta = [] → ∀ name?, checkpointRestore s name? = (s, some .notFound)) ∧
    (n ≠ "" → s.meta.find? (fun r => r.name == n) = none →
      checkpointRestore s (some n) = (s, some .notFound)) ∧
    (∀ cp, n ≠ "" → s.meta.find? (fun r => r.name == n) = some cp →
      s.snapFiles.lookup cp.file = none →
      checkpointRestore s (some n) = (s, some .missingFile)) := by
  refine ⟨?_, ?_, ?_⟩
  · intro hmeta name?
    simp [checkpointRestore, hmeta]
  · intro hne hfind
    by_cases hl : s.meta.length = 0
    · simp [checkpointRestore, hl]
    · simp only [checkpointRestore, hl, if_false, jsTruthy,
        isEmpty_false_of_ne n hne, Bool.false_eq_true, if_false, hfind]
  · intro cp hne hfind hfile
    have hl : ¬ s.meta.length = 0 := by
      intro h
      rw [List.length_eq_zero] at h
      rw [h] at hfind
      simp at hfind
    simp only [checkpointRestore, hl, if_false, jsTruthy,
      isEmpty_false_of_ne n hne, Bool.false_eq_true, if_false, hfind,
      restoreFrom, hfile]

/-- Witness for C7 (amended): all three failure cases at concrete
states: the empty index, a supplied name matching nothing, and a record
whose backing file is gone. -/
theorem restore_failure_cases_witness :
    (checkpointRestore c1State (some "ghost") = (c1State, some .notFound)) ∧
    (checkpointRestore c7State (some "B") = (c7State, some .notFound)) ∧
    (checkpointRestore c8State (some "x") = (c8State, some .missingFile)) :=
  ⟨(restore_failure_cases c1State "ghost").1 rfl (some "ghost"),
   (restore_failure_cases c7State "B").2.1 (by decide) rfl,
   (restore_failure_cases c8State "x").2.2 ⟨"x", "t1", "x.sqlite", none⟩
     (by decide) rfl rfl⟩

/-- C8: on an index holding exactly the records `rx` (named `x`) and
`ry` (named `y`), `Delete("x")` succeeds — whether or not `rx`'s backing
file exists, a missing file being best-effort — removes `rx`'s backing
file entry from the snapshot directory, leaves the persisted index
holding exactly the unchanged record `ry`, and a subsequent
`Restore("x")` fails with `NotFound`, leaving the state unmodified. -/
theorem delete_isolated (s : FsState) (rx ry : CheckpointRecord)
    (hmeta : s.meta = [rx, ry]) (hx : rx.name = "x") (hy : ry.name = "y") :
    checkpointDelete s "x" =
      ({ s with snapFiles := removeFile s.snapFiles rx.file, meta := [ry] }, none) ∧
    checkpointRestore
        { s with snapFiles := removeFile s.snapFiles rx.file, meta := [ry] } (some "x") =
      ({ s with snapFiles := removeFile s.snapFiles rx.file, meta := [ry] },
        some .notFound) := by
  have hcn : jsTruthy (some "x") = some "x" := rfl
  constructor
  · simp [checkpointDelete, hmeta, spliceFirst, hx]
  · simp [checkpointRestore, hcn, hy]

/-- Witness for C8: deleting `x` at a concrete state where `x`'s backing
file is missing (not an error) leaves exactly the record `y`, and
restoring `x` afterwards fails with `NotFound`. -/
theorem delete_isolated_witness :
    checkpointDelete c8State "x" =
      ({ c8State with
          snapFiles := removeFile c8State.snapFiles "x.sqlite",
          meta := [⟨"y", "t2", "y.sqlite", none⟩] }, none) ∧
    checkpointRestore
        { c8State with
          snapFiles := removeFile c8State.snapFiles "x.sqlite",
          meta := [⟨"y", "t2", "y.sqlite", none⟩] } (some "x") =
      ({ c8State with
          snapFiles := removeFile c8State.snapFiles "x.sqlite",
          meta := [⟨"y", "t2", "y.sqlite", none⟩] }, some .notFound) :=
  delete_isolated c8State ⟨"x", "t1", "x.sqlite", none⟩ ⟨"y", "t2", "y.sqlite", none⟩
    rfl rfl rfl

/-! ## Claims about the configuration document -/

/-- The blueprint document with every key absent: `{}` as JSON. -/
def emptyBlueprint : Blueprint :=
  { schema := none, landingPage := none, preferredVersions := none,
    features := none, steps := none, wpsmith := none }

/-- C3: for every existing on-disk document and every partial document,
`Save` preserves each top-level field not mentioned in the partial
document and overwrites each field the partial document sets (the first
three equations: the saved value is the partial document's when present,
the loaded prior value otherwise — so a `steps` array in the partial
document replaces the prior array wholesale, and key `$schema` behaves
the same because the forced schema id is itself overwritten by the
merged document's always-present schema); it deep-merges exactly
`preferredVersions` and the `wpsmith` extension block key-by-key (a key
set in the partial document overwrites, an absent key is preserved); and
Load → Save(`{preferredVersions: {wp: "6.7"}}`) → Load yields a document
whose `preferredVersions.php` is unchanged from the prior load and whose
`preferredVersions.wp` is `"6.7"`. -/
theorem save_merge_semantics (disk : DiskRead) (patch : Blueprint) :
    (saveBlueprint disk patch).landingPage
        = (patch.landingPage <|> (loadBlueprint disk).landingPage) ∧
    (saveBlueprint disk patch).features
        = (patch.features <|> (loadBlueprint disk).features) ∧
    (saveBlueprint disk patch).steps
        = (patch.steps <|> (loadBlueprint disk).steps) ∧
    (saveBlueprint disk patch).schema
        = (patch.schema <|> (loadBlueprint disk).schema) ∧
    (saveBlueprint disk patch).preferredVersions
        = some { php := (patch.preferredVersions.getD { php := none, wp := none }).php
                  <|> ((loadBlueprint disk).preferredVersions.getD { php := none, wp := none }).php,
                 wp := (patch.preferredVersions.getD { php := none, wp := none }).wp
                  <|> ((loadBlueprint disk).preferredVersions.getD { php := none, wp := none }).wp } ∧
    (saveBlueprint disk patch).wpsmith
        = some { port := (patch.wpsmith.getD { port := none }).port
                  <|> ((loadBlueprint disk).wpsmith.getD { port := none }).port } ∧
    (loadBlueprint (.ok (saveBlueprint disk
        { emptyBlueprint with preferredVersions := some { php := none, wp := some "6.7" } }))).preferredVersions
        = some { php := ((loadBlueprint disk).preferredVersions.getD { php := none, wp := none }).php,
                 wp := some "6.7" } := by
  cases disk with
  | missing =>
    simp [saveBlueprint, loadBlueprint, spreadBlueprint, spreadPV, spreadWpsmith,
      DEFAULT_BLUEPRINT, emptyBlueprint]
    cases patch.schema <;> simp
  | malformed =>
    simp [saveBlueprint, loadBlueprint, spreadBlueprint, spreadPV, spreadWpsmith,
      DEFAULT_BLUEPRINT, emptyBlueprint]
    cases patch.schema <;> simp
  | ok b =>
    cases hb : b.schema <;>
      [(simp [saveBlueprint, loadBlueprint, spreadBlueprint, spreadPV, spreadWpsmith,
          DEFAULT_BLUEPRINT, emptyBlueprint, hb];
        cases patch.schema <;> simp);
       (simp [saveBlueprint, loadBlueprint, spreadBlueprint, spreadPV, spreadWpsmith,
          DEFAULT_BLUEPRINT, emptyBlueprint, hb];
        cases patch.schema <;> simp)]

/-- C4: `Load` against a nonexistent document and against a malformed
document returns the hardcoded default document — schema identifier,
default runtime versions (`php: "8.3"`, `wp: "latest"`) and default
extension block (`port: 9400`).  `loadBlueprint` is a total function:
both failure outcomes of the read are absorbed, never propagated. -/
theorem load_fail_open :
    loadBlueprint .missing = DEFAULT_BLUEPRINT ∧
    loadBlueprint .malformed = DEFAULT_BLUEPRINT ∧
    DEFAULT_BLUEPRINT.schema = some BLUEPRINT_SCHEMA ∧
    DEFAULT_BLUEPRINT.preferredVersions = some { php := some "8.3", wp := some "latest" } ∧
    DEFAULT_BLUEPRINT.wpsmith = some { port := some 9400 } :=
  ⟨rfl, rfl, rfl, rfl, rfl⟩

/-- An on-disk document whose `preferredVersions` omits the `php` key:
`{"preferredVersions": {"wp": "6.0"}}`. -/
def c5Doc : Blueprint :=
  { emptyBlueprint with preferredVersions := some { php := none, wp := some "6.0" } }

/-- Counterexample to C5 as stated: loading a document whose
`preferredVersions` object omits `php` does not apply the default for
that key — the document's `preferredVersions` object replaces the
default wholesale (`{...DEFAULT_BLUEPRINT, ...blueprint}` is a shallow
top-level spread), so the loaded `php` is absent, not the default
`"8.3"`. -/
theorem load_shallow_counterexample :
    (loadBlueprint (.ok c5Doc)).preferredVersions = some { php := none, wp := some "6.0" } ∧
    ¬ ((loadBlueprint (.ok c5Doc)).preferredVersions.getD { php := none, wp := none }).php
        = some "8.3" := by
  decide

/-- C5 (amended): `Load` applies the hardcoded defaults only for keys
absent at the top level of the on-disk document; a nested object present
in the document (`preferredVersions`, `wpsmith`) replaces the default
wholesale, so a runtime key omitted inside it stays absent rather than
receiving its default value. -/
theorem load_defaults_shallow (b : Blueprint) :
    (loadBlueprint (.ok b)).preferredVersions
        = (b.preferredVersions <|> some { php := some "8.3", wp := some "latest" }) ∧
    (loadBlueprint (.ok b)).wpsmith = (b.wpsmith <|> some { port := some 9400 }) ∧
    (loadBlueprint (.ok b)).schema = (b.schema <|> some BLUEPRINT_SCHEMA) ∧
    (loadBlueprint (.ok b)).landingPage = b.landingPage ∧
    (loadBlueprint (.ok b)).features = b.features ∧
    (loadBlueprint (.ok b)).steps = b.steps := by
  simp [loadBlueprint, spreadBlueprint, DEFAULT_BLUEPRINT]

/-- The C9 scenario: steps `[install-plugin(a), set-options(...),
install-plugin(b)]`. -/
def c9Blueprint : Blueprint :=
  { emptyBlueprint with steps := some [
      { step := "installPlugin",
        pluginData := some { resource := "wordpress.org/plugins", slug := some "a", url := none } },
      { step := "setSiteOptions", pluginData := none },
      { step := "installPlugin",
        pluginData := some { resource := "wordpress.org/plugins", slug := some "b", url := none } }] }

/-- A blueprint whose steps contain no install-plugin variant. -/
def c9NoMatch : Blueprint :=
  { emptyBlueprint with steps := some [{ step := "login", pluginData := none }] }

/-- C9: the plugin projection is order-preserving and filter-correct —
on steps `[install-plugin(a), set-options(...), install-plugin(b)]` it
returns `[a, b]` in that order — and it returns the empty sequence when
the document has no `steps` key, and when no step carries the
install-plugin tag. -/
theorem plugins_projection (b : Blueprint) :
    getPluginsFromBlueprint c9Blueprint = ["a", "b"] ∧
    (b.steps = none → getPluginsFromBlueprint b = []) ∧
    ((∀ st ∈ b.steps.getD [], st.step ≠ "installPlugin") →
      getPluginsFromBlueprint b = []) := by
  refine ⟨by decide, ?_, ?_⟩
  · intro h
    simp [getPluginsFromBlueprint, h]
  · intro h
    cases hs : b.steps with
    | none => simp [getPluginsFromBlueprint, hs]
    | some steps =>
      rw [hs] at h
      simp only [Option.getD_some] at h
      have hfil : steps.filter
          (fun st => st.step == "installPlugin" && st.pluginData.isSome) = [] := by
        rw [List.filter_eq_nil_iff]
        intro st hst
        simp only [Bool.and_eq_true, beq_iff_eq, not_and]
        intro hstep
        exact absurd hstep (h st hst)
      simp [getPluginsFromBlueprint, hs, hfil]

/-- Witness for C9: the empty-result cases at concrete documents — one
with no `steps` key, one whose steps carry no install-plugin tag. -/
theorem plugins_projection_witness :
    getPluginsFromBlueprint emptyBlueprint = [] ∧
    getPluginsFromBlueprint c9NoMatch = [] :=
  ⟨(plugins_projection emptyBlueprint).2.1 rfl,
   (plugins_projection c9NoMatch).2.2 (by decide)⟩

/-- The C10 scenario: four install-plugin steps — one with no
`pluginData` key (admitted by the open fallback variant), one installed
from a URL resource with no slug, one with an empty slug, one with slug
`ok`. -/
def c10Blueprint : Blueprint :=
  { emptyBlueprint with steps := some [
      { step := "installPlugin", pluginData := none },
      { step := "installPlugin",
        pluginData := some { resource := "url", slug := none, url := some "https://e.com/p.zip" } },
      { step := "installPlugin",
        pluginData := some { resource := "wordpress.org/plugins", slug := some "", url := none } },
      { step := "installPlugin",
        pluginData := some { resource := "wordpress.org/plugins", slug := some "ok", url := none } }] }

/-- C10: every string in the plugin projection's result is a non-empty
slug of some install-plugin step that carries a `pluginData` key — so a
step lacking `pluginData`, or whose `pluginData` has a missing or empty
`slug` (e.g. a plugin installed from a URL resource), is silently
omitted. -/
theorem plugins_only_truthy_slugs (b : Blueprint) (s : String)
    (h : s ∈ getPluginsFromBlueprint b) :
    s ≠ "" ∧ ∃ st ∈ b.steps.getD [], st.step = "installPlugin" ∧
      ∃ pd, st.pluginData = some pd ∧ pd.slug = some s := by
  cases hs : b.steps with
  | none =>
    rw [getPluginsFromBlueprint, hs] at h
    simp at h
  | some steps =>
    rw [getPluginsFromBlueprint, hs] at h
    rw [List.mem_filterMap] at h
    obtain ⟨o, ho, hts⟩ := h
    cases o with
    | none => simp [truthySlug] at hts
    | some s0 =>
      have hse : s0.isEmpty = false ∧ s0 = s := by
        by_cases he : s0.isEmpty = true
        · simp [truthySlug, he] at hts
        · rw [Bool.not_eq_true] at he
          simp [truthySlug, he] at hts
          exact ⟨he, hts⟩
      obtain ⟨hne0, rfl⟩ := hse
      rw [List.mem_map] at ho
      obtain ⟨st, hstf, hmap⟩ := ho
      rw [List.mem_filter] at hstf
      obtain ⟨hmem, hcond⟩ := hstf
      rw [Bool.and_eq_true] at hcond
      obtain ⟨hstep, hps⟩ := hcond
      rw [beq_iff_eq] at hstep
      rw [Option.isSome_iff_exists] at hps
      obtain ⟨pd, hpd⟩ := hps
      rw [hpd] at hmap
      simp only [Option.some_bind] at hmap
      refine ⟨?_, st, ?_, hstep, pd, hpd, hmap⟩
      · intro hempty
        rw [hempty] at hne0
        simp [String.isEmpty] at hne0
      · simpa using hmem

/-- Witness for C10: on the concrete document the projection yields
exactly `["ok"]` — the three defective install-plugin steps are omitted
— and the member `"ok"` satisfies the characterization. -/
theorem plugins_only_truthy_slugs_witness :
    getPluginsFromBlueprint c10Blueprint = ["ok"] ∧
    ("ok" ≠ "" ∧ ∃ st ∈ c10Blueprint.steps.getD [], st.step = "installPlugin" ∧
      ∃ pd, st.pluginData = some pd ∧ pd.slug = some "ok") :=
  ⟨by decide, plugins_only_truthy_slugs c10Blueprint "ok" (by decide)⟩

end WPSmith
